import Mathlib

/-
  Verification of the Structured Text (ST) static validator
  (function performSTValidation of the validation panel component).

  The validator is embedded shallowly: JavaScript strings become `List Char`,
  the per-line forEach body becomes a pipeline of pure state-transforming
  functions applied in source order, and the trailing finalization
  (unmatched-parenthesis check, unused-variable warnings, document-level
  suggestions, score computation) becomes `finalize`.
-/

set_option maxRecDepth 10000

namespace STV

abbrev Chars := List Char

/-- JavaScript word-character class \w, i.e. [A-Za-z0-9_]. -/
def wordChar (c : Char) : Bool := c.isAlpha || c.isDigit || c == '_'

/-- Whitespace recognised by JavaScript trim and the \s class (ASCII part). -/
def wsp (c : Char) : Bool :=
  c == ' ' || c == '\t' || c == '\n' || c == '\r' || c == '\x0b' || c == '\x0c'

/-- String.prototype.trim on a character list. -/
def trimL (s : Chars) : Chars := ((s.dropWhile wsp).reverse.dropWhile wsp).reverse

/-- String.prototype.toUpperCase (ASCII). -/
def upperL (s : Chars) : Chars := s.map Char.toUpper

/-- hasPfx p s: p occurs at the start of s (String.prototype.startsWith). -/
def hasPfx : Chars → Chars → Bool
  | [], _ => true
  | _ :: _, [] => false
  | p :: ps, c :: cs => p == c && hasPfx ps cs

/-- hasSub p s: p occurs somewhere in s (String.prototype.includes). -/
def hasSub (p : Chars) : Chars → Bool
  | [] => p.isEmpty
  | c :: cs => hasPfx p (c :: cs) || hasSub p cs

/-- hasSfx p s: p occurs at the end of s (String.prototype.endsWith). -/
def hasSfx (p s : Chars) : Bool := hasPfx p.reverse s.reverse

/-- hasSeq p q s: p occurs at some position of s, and q occurs after that
occurrence; this is the shape of the regexes of the form p.*q. -/
def hasSeq (p q : Chars) : Chars → Bool
  | [] => false
  | c :: cs => (hasPfx p (c :: cs) && hasSub q ((c :: cs).drop p.length)) || hasSeq p q cs

/-- Number of occurrences of a character, as counted by match(/x/g).length. -/
def countChar (ch : Char) (s : Chars) : Nat := (s.filter (fun c => c == ch)).length

/-- String.prototype.split on the newline character. -/
def splitNl : Chars → List Chars
  | [] => [[]]
  | c :: cs =>
    if c == '\n' then [] :: splitNl cs
    else
      match splitNl cs with
      | [] => [[c]]
      | h :: t => (c :: h) :: t

/-- The anchored declaration regex of the source, matched against
the trimmed line; returns the two captured groups (name, type).
Because a maximal word-character run can never be usefully shortened
(the following character is not whitespace and not a colon), greedy
maximal munch is exact here. -/
def declMatch (s : Chars) : Option (Chars × Chars) :=
  let w1 := s.takeWhile wordChar
  if w1.isEmpty then none
  else
    match (s.drop w1.length).dropWhile wsp with
    | ':' :: r2 =>
      let w2 := (r2.dropWhile wsp).takeWhile wordChar
      if w2.isEmpty then none else some (w1, w2)
    | _ => none

/-- One attempted match of the assignment-target regex at the start of s. -/
def assignAt (s : Chars) : Option Chars :=
  let w := s.takeWhile wordChar
  if w.isEmpty then none
  else
    match (s.drop w.length).dropWhile wsp with
    | ':' :: '=' :: _ => some w
    | _ => none

/-- Leftmost match of the assignment-target regex: the first
identifier run that is followed (after optional whitespace) by the
assignment operator. -/
def findAssign : Chars → Option Chars
  | [] => none
  | c :: cs =>
    match assignAt (c :: cs) with
    | some w => some w
    | none => findAssign cs

/-- The naming-convention regex of the source: a letter followed by
letters, digits or underscores only, spanning the whole identifier. -/
def namingOk (s : Chars) : Bool :=
  match s with
  | [] => false
  | c :: cs => c.isAlpha && cs.all wordChar

/-- The IEC 61131-3 ST reserved words, exactly as listed in the source. -/
def reservedWords : List Chars :=
  (["VAR", "END_VAR", "VAR_INPUT", "VAR_OUTPUT", "VAR_IN_OUT", "VAR_TEMP", "VAR_EXTERNAL",
    "VAR_GLOBAL", "PROGRAM", "END_PROGRAM", "FUNCTION", "END_FUNCTION", "FUNCTION_BLOCK",
    "END_FUNCTION_BLOCK", "IF", "THEN", "ELSE", "ELSIF", "END_IF", "CASE", "OF", "END_CASE",
    "FOR", "TO", "BY", "DO", "END_FOR", "WHILE", "END_WHILE", "REPEAT", "UNTIL", "END_REPEAT",
    "EXIT", "RETURN", "TRUE", "FALSE", "AND", "OR", "XOR", "NOT", "MOD"]).map String.toList

/-- The IEC 61131-3 standard data types, exactly as listed in the source. -/
def standardDataTypes : List Chars :=
  (["BOOL", "SINT", "INT", "DINT", "LINT", "USINT", "UINT", "UDINT", "ULINT",
    "REAL", "LREAL", "TIME", "DATE", "TIME_OF_DAY", "TOD", "DATE_AND_TIME", "DT",
    "STRING", "WSTRING", "BYTE", "WORD", "DWORD", "LWORD"]).map String.toList

/-- One diagnostic of the report (the ValidationResult interface). -/
structure ValidationResult where
  type : String
  message : String
  line : Option Nat
  column : Option Nat
  severity : String
  category : String
deriving DecidableEq

/-- The five safety-audit booleans. -/
structure SafetyChecks where
  emergencyStop : Bool
  safetyInterlocks : Bool
  failSafeMechanisms : Bool
  watchdogTimer : Bool
  inputValidation : Bool
deriving DecidableEq

/-- The four IEC-compliance booleans. -/
structure IecCompliance where
  variableDeclaration : Bool
  dataTypeUsage : Bool
  structureCompliance : Bool
  namingConvention : Bool
deriving DecidableEq

/-- The full report (the ValidationResults interface). -/
structure ValidationResults where
  isValid : Bool
  errors : List ValidationResult
  warnings : List ValidationResult
  suggestions : List ValidationResult
  safetyChecks : SafetyChecks
  iecCompliance : IecCompliance
  syntaxScore : Int
  logicScore : Int
  safetyScore : Int
deriving DecidableEq

/-- The scan state threaded through the per-line loop: the evolving
report plus the local variables of performSTValidation. -/
structure ScanSt where
  res : ValidationResults
  inVarSection : Bool
  inFunctionBlock : Bool
  braceCount : Int
  declaredVars : List Chars
  usedVars : List Chars
deriving DecidableEq

/-- Critical syntax error diagnostic, as pushed by every error site. -/
def mkErr (msg : String) (ln : Option Nat) : ValidationResult :=
  { type := "error", message := msg, line := ln, column := none,
    severity := "critical", category := "syntax" }

/-- Warning diagnostic with the given severity and category. -/
def mkWarn (msg : String) (ln : Option Nat) (sev cat : String) : ValidationResult :=
  { type := "warning", message := msg, line := ln, column := none,
    severity := sev, category := cat }

/-- results.errors.push(d) together with results.isValid = false,
the combination used at every error site of the source. -/
def pushError (d : ValidationResult) (st : ScanSt) : ScanSt :=
  { st with res := { st.res with errors := st.res.errors ++ [d], isValid := false } }

/-- results.warnings.push(d). -/
def pushWarning (d : ValidationResult) (st : ScanSt) : ScanSt :=
  { st with res := { st.res with warnings := st.res.warnings ++ [d] } }

/-- Set.prototype.add: insertion-ordered, duplicate-free. -/
def addSet (x : Chars) (l : List Chars) : List Chars :=
  if x ∈ l then l else l ++ [x]

/-- The reserved-word error (line 238 of the source). -/
def reservedErr (varName : Chars) (n : Nat) : ValidationResult :=
  mkErr ("\x27" ++ (⟨varName⟩ : String) ++ "\x27 is a reserved word and cannot be used as variable name") (some n)

/-- The non-standard data type warning (line 215). -/
def nonStdTypeWarn (dataType : Chars) (n : Nat) : ValidationResult :=
  mkWarn ("Non-standard data type \x27" ++ (⟨dataType⟩ : String) ++ "\x27 used") (some n) "medium" "iec61131"

/-- The naming-convention warning (line 226). -/
def namingWarn (varName : Chars) (n : Nat) : ValidationResult :=
  mkWarn ("Variable \x27" ++ (⟨varName⟩ : String) ++ "\x27 doesn\x27t follow IEC 61131-3 naming convention")
    (some n) "medium" "iec61131"

/-- The IF-without-THEN error (line 254). -/
def ifErr (n : Nat) : ValidationResult := mkErr "IF statement must be followed by THEN" (some n)

/-- The FOR-without-TO error (line 266). -/
def forErr (n : Nat) : ValidationResult := mkErr "FOR statement missing TO keyword" (some n)

/-- The WHILE-without-DO error (line 278). -/
def whileErr (n : Nat) : ValidationResult := mkErr "WHILE statement missing DO keyword" (some n)

/-- The CASE-without-OF error (line 290). -/
def caseErr (n : Nat) : ValidationResult := mkErr "CASE statement missing OF keyword" (some n)

/-- The assignment-operator warning (line 303). -/
def eqWarn (n : Nat) : ValidationResult :=
  mkWarn "Use := for assignment, = is for comparison" (some n) "medium" "syntax"

/-- The missing-semicolon warning (line 315). -/
def semiWarn (n : Nat) : ValidationResult :=
  mkWarn "Statement should end with semicolon" (some n) "medium" "style"

/-- The document-level unmatched-parentheses error (line 365): no line number. -/
def parenErr : ValidationResult := mkErr "Unmatched parentheses in code" none

/-- The document-level unused-variable warning (line 377): no line number. -/
def unusedWarn (v : Chars) : ValidationResult :=
  mkWarn ("Variable \x27" ++ (⟨v⟩ : String) ++ "\x27 declared but never used") none "low" "style"

/-- The add-comments suggestion (line 388). -/
def commentSugg : ValidationResult :=
  { type := "info", message := "Add comments using (* *) or // for better code documentation",
    line := none, column := none, severity := "low", category := "style" }

/-- The emergency-stop suggestion (line 397). -/
def estopSugg : ValidationResult :=
  { type := "info", message := "Consider implementing emergency stop logic for safety compliance",
    line := none, column := none, severity := "medium", category := "safety" }

/-- The program-size suggestion (line 406). -/
def sizeSugg : ValidationResult :=
  { type := "info", message := "Consider breaking large programs into smaller function blocks",
    line := none, column := none, severity := "low", category := "style" }

/-- Section tracking, source lines 193-202. -/
def trackSections (u : Chars) (st : ScanSt) : ScanSt :=
  let st1 := if hasPfx "VAR".toList u then
      { st with inVarSection := true,
                res := { st.res with iecCompliance :=
                  { st.res.iecCompliance with variableDeclaration := true } } }
    else st
  let st2 := if u == "END_VAR".toList then { st1 with inVarSection := false } else st1
  if hasSub "FUNCTION_BLOCK".toList u || hasSub "PROGRAM".toList u then
    { st2 with inFunctionBlock := true }
  else st2

/-- Variable-declaration parsing, source lines 205-248. -/
def parseDecl (t u : Chars) (n : Nat) (st : ScanSt) : ScanSt :=
  if st.inVarSection && t.contains ':' && !hasPfx "VAR".toList u then
    match declMatch t with
    | some (varName, dataType) =>
      let s1 : ScanSt := { st with declaredVars := addSet (upperL varName) st.declaredVars }
      let s2 := if standardDataTypes.contains (upperL dataType) then
          { s1 with res := { s1.res with iecCompliance :=
            { s1.res.iecCompliance with dataTypeUsage := true } } }
        else pushWarning (nonStdTypeWarn dataType n) s1
      let s3 := if !namingOk varName then
          pushWarning (namingWarn varName n)
            { s2 with res := { s2.res with iecCompliance :=
              { s2.res.iecCompliance with namingConvention := false } } }
        else s2
      if reservedWords.contains (upperL varName) then pushError (reservedErr varName n) s3 else s3
    | none => st
  else st

/-- IF-THEN structure check, source lines 253-262. -/
def checkIF (t u : Chars) (n : Nat) (st : ScanSt) : ScanSt :=
  if hasSub "IF ".toList u && !hasSub "THEN".toList u && !hasSub ":=".toList t then
    pushError (ifErr n) st
  else st

/-- FOR-TO structure check, source lines 265-274. -/
def checkFOR (u : Chars) (n : Nat) (st : ScanSt) : ScanSt :=
  if hasSub "FOR ".toList u && !hasSub "TO".toList u then pushError (forErr n) st else st

/-- WHILE-DO structure check, source lines 277-286. -/
def checkWHILE (u : Chars) (n : Nat) (st : ScanSt) : ScanSt :=
  if hasSub "WHILE ".toList u && !hasSub "DO".toList u then pushError (whileErr n) st else st

/-- CASE-OF structure check, source lines 289-298. -/
def checkCASE (u : Chars) (n : Nat) (st : ScanSt) : ScanSt :=
  if hasSub "CASE ".toList u && !hasSub "OF".toList u then pushError (caseErr n) st else st

/-- Assignment-operator validation, source lines 301-310. -/
def checkEq (t u : Chars) (n : Nat) (st : ScanSt) : ScanSt :=
  if t.contains '=' && !hasSub ":=".toList t && !hasSub "<=".toList t &&
     !hasSub ">=".toList t && !hasSub "<>".toList t && !hasSub "IF ".toList u then
    pushWarning (eqWarn n) st
  else st

/-- Semicolon validation, source lines 313-322. -/
def checkSemi (t u : Chars) (n : Nat) (st : ScanSt) : ScanSt :=
  if !st.inVarSection && (hasSub ":=".toList t || hasPfx "RETURN".toList u || hasSub "EXIT".toList u)
     && !hasSfx ";".toList t then
    pushWarning (semiWarn n) st
  else st

/-- Variable-usage tracking, source lines 325-328. -/
def trackUsage (t : Chars) (st : ScanSt) : ScanSt :=
  match findAssign t with
  | some w => { st with usedVars := addSet (upperL w) st.usedVars }
  | none => st

/-- Safety checks, source lines 331-350 (case-insensitive regex tests on the
trimmed line, here realised as substring tests on its upper-cased form). -/
def safetyScan (u : Chars) (st : ScanSt) : ScanSt :=
  let sc := st.res.safetyChecks
  let sc := if hasSub "EMERGENCY".toList u || hasSub "E_STOP".toList u ||
               hasSub "ESTOP".toList u || hasSub "SAFETY".toList u then
      { sc with emergencyStop := true } else sc
  let sc := if hasSub "INTERLOCK".toList u || hasSub "SAFETY_GATE".toList u ||
               hasSub "LIGHT_CURTAIN".toList u || hasSub "SAFETY_DOOR".toList u then
      { sc with safetyInterlocks := true } else sc
  let sc := if hasSub "FAIL_SAFE".toList u || hasSub "WATCHDOG".toList u ||
               hasSub "TIMEOUT".toList u || hasSub "SAFETY_TIME".toList u then
      { sc with failSafeMechanisms := true } else sc
  let sc := if hasSub "WATCHDOG".toList u || hasSub "WDT".toList u ||
               hasSeq "TIMER".toList "RESET".toList u then
      { sc with watchdogTimer := true } else sc
  let sc := if hasSeq "INPUT".toList "VALID".toList u || hasSeq "RANGE".toList "CHECK".toList u ||
               hasSeq "LIMIT".toList "CHECK".toList u then
      { sc with inputValidation := true } else sc
  { st with res := { st.res with safetyChecks := sc } }

/-- Structure compliance evidence, source lines 353-356. -/
def structScan (u : Chars) (st : ScanSt) : ScanSt :=
  if hasSub "END_IF".toList u || hasSub "END_FOR".toList u ||
     hasSub "END_WHILE".toList u || hasSub "END_CASE".toList u then
    { st with res := { st.res with iecCompliance :=
      { st.res.iecCompliance with structureCompliance := true } } }
  else st

/-- Parenthesis balance accumulation, source lines 359-360. -/
def parenScan (t : Chars) (st : ScanSt) : ScanSt :=
  { st with braceCount := st.braceCount + (countChar '(' t : Int) - (countChar ')' t : Int) }

/-- The skip condition of the line loop, source line 190: empty after trimming,
block-comment opener, or line comment. -/
def skipLine (t : Chars) : Bool := t.isEmpty || hasPfx "(*".toList t || hasPfx "//".toList t

/-- One iteration of the forEach over lines, in source order. -/
def processLine (st : ScanSt) (n : Nat) (line : Chars) : ScanSt :=
  let t := trimL line
  let u := upperL t
  if skipLine t then st
  else
    parenScan t (structScan u (safetyScan u (trackUsage t (checkSemi t u n (checkEq t u n
      (checkCASE u n (checkWHILE u n (checkFOR u n (checkIF t u n
        (parseDecl t u n (trackSections u st)))))))))))

/-- The whole line loop, threading the 1-based line number. -/
def scanLines : ScanSt → Nat → List Chars → ScanSt
  | st, _, [] => st
  | st, n, l :: ls => scanLines (processLine st n l) (n + 1) ls

/-- The initial report value (source lines 139-160). -/
def initResults : ValidationResults :=
  { isValid := true, errors := [], warnings := [], suggestions := [],
    safetyChecks := { emergencyStop := false, safetyInterlocks := false,
                      failSafeMechanisms := false, watchdogTimer := false,
                      inputValidation := false },
    iecCompliance := { variableDeclaration := false, dataTypeUsage := false,
                       structureCompliance := false, namingConvention := true },
    syntaxScore := 100, logicScore := 100, safetyScore := 0 }

/-- The initial scan state (source lines 162-167). -/
def initSt : ScanSt :=
  { res := initResults, inVarSection := false, inFunctionBlock := false,
    braceCount := 0, declaredVars := [], usedVars := [] }

/-- Object.values(results.safetyChecks).filter(Boolean).length. -/
def countTrueFlags (sc : SafetyChecks) : Nat :=
  ([sc.emergencyStop, sc.safetyInterlocks, sc.failSafeMechanisms,
    sc.watchdogTimer, sc.inputValidation].filter id).length

/-- Everything after the line loop: unmatched-parenthesis check, unused-variable
warnings, document-level suggestions and score computation (source lines 363-422). -/
def finalize (code : Chars) (st : ScanSt) : ValidationResults :=
  let r0 := st.res
  let r1 := if st.braceCount ≠ 0 then
      { r0 with errors := r0.errors ++ [parenErr], isValid := false }
    else r0
  let r2 := { r1 with warnings := r1.warnings ++
      ((st.declaredVars.filter (fun v => !(decide (v ∈ st.usedVars)))).map unusedWarn) }
  let r3 := if !hasSub "(*".toList code && !hasSub "//".toList code then
      { r2 with suggestions := r2.suggestions ++ [commentSugg] }
    else r2
  -- the source reads results.safetyChecks.emergencyStop here; no finalization
  -- step modifies the safety flags, so this is the flag of the scanned state
  let r4 := if !st.res.safetyChecks.emergencyStop then
      { r3 with suggestions := r3.suggestions ++ [estopSugg] }
    else r3
  let r5 := if 100 < (splitNl code).length then
      { r4 with suggestions := r4.suggestions ++ [sizeSugg] }
    else r4
  { r5 with
    syntaxScore := max 0 (100 - 15 * (r5.errors.length : Int) - 5 * (r5.warnings.length : Int)),
    logicScore := max 0 (100 - 20 *
      (((r5.errors.filter (fun e => e.category == "semantics")).length : Int))),
    safetyScore := min 100 (20 * (countTrueFlags r5.safetyChecks : Int)) }

/-- The lines of the input, as the source splits them. -/
def linesOf (code : String) : List Chars := splitNl code.data

/-- The scan state after the whole line loop. -/
def scanCode (code : String) : ScanSt := scanLines initSt 1 (linesOf code)

/-- The declared-variable set (insertion order) after the scan. -/
def declaredOf (code : String) : List Chars := (scanCode code).declaredVars

/-- The used-variable set (insertion order) after the scan. -/
def usedOf (code : String) : List Chars := (scanCode code).usedVars

/-- The parenthesis contribution of one raw line: zero for skipped lines,
open minus close count of the trimmed text otherwise. -/
def lineDelta (l : Chars) : Int :=
  let t := trimL l
  if skipLine t then 0 else (countChar '(' t : Int) - (countChar ')' t : Int)

/-- Final parenthesis balance over all processed lines. -/
def parenBalance (code : String) : Int := ((linesOf code).map lineDelta).sum

/-- The complete ST validator, from source text to report. -/
def performSTValidation (code : String) : ValidationResults :=
  finalize code.data (scanCode code)

/-- The two scan invariants: validity mirrors emptiness of the error list,
and every error carries category syntax. -/
def Inv (st : ScanSt) : Prop :=
  st.res.isValid = st.res.errors.isEmpty ∧ ∀ e ∈ st.res.errors, e.category = "syntax"

/-- Monotone evolution of a scan state: warnings and used variables only grow,
safety flags never revert, and the invariants are preserved. -/
def Grows (a b : ScanSt) : Prop :=
  (∀ w, w ∈ a.res.warnings → w ∈ b.res.warnings) ∧
  (∀ v, v ∈ a.usedVars → v ∈ b.usedVars) ∧
  (a.res.safetyChecks.emergencyStop = true → b.res.safetyChecks.emergencyStop = true) ∧
  (a.res.safetyChecks.safetyInterlocks = true → b.res.safetyChecks.safetyInterlocks = true) ∧
  (a.res.safetyChecks.failSafeMechanisms = true → b.res.safetyChecks.failSafeMechanisms = true) ∧
  (a.res.safetyChecks.watchdogTimer = true → b.res.safetyChecks.watchdogTimer = true) ∧
  (a.res.safetyChecks.inputValidation = true → b.res.safetyChecks.inputValidation = true) ∧
  (Inv a → Inv b)

/-- Helper for specBareEq: scans the line remembering the previous character
(a blank for the start of the line). -/
def bareEqAux (prev : Char) : Chars → Bool
  | [] => false
  | c :: cs => (c == '=' && !(prev == ':' || prev == '<' || prev == '>')) || bareEqAux c cs

/-- The notion used by the spec sentence on assignment-operator hygiene,
written from that sentence for comparison with checkEq: the line contains a
bare equals character, i.e. an equals sign that is not the second character
of one of the two-character operators (its predecessor is none of colon,
less-than, greater-than). -/
def specBareEq (s : Chars) : Bool := bareEqAux ' ' s

lemma grows_rfl (a : ScanSt) : Grows a a :=
  ⟨fun _ h => h, fun _ h => h, id, id, id, id, id, id⟩

lemma grows_trans {a b c : ScanSt} (h1 : Grows a b) (h2 : Grows b c) : Grows a c :=
  ⟨fun w hw => h2.1 w (h1.1 w hw), fun v hv => h2.2.1 v (h1.2.1 v hv),
   fun h => h2.2.2.1 (h1.2.2.1 h), fun h => h2.2.2.2.1 (h1.2.2.2.1 h),
   fun h => h2.2.2.2.2.1 (h1.2.2.2.2.1 h), fun h => h2.2.2.2.2.2.1 (h1.2.2.2.2.2.1 h),
   fun h => h2.2.2.2.2.2.2.1 (h1.2.2.2.2.2.2.1 h),
   fun h => h2.2.2.2.2.2.2.2 (h1.2.2.2.2.2.2.2 h)⟩

lemma grows_keep {a b : ScanSt}
    (hw : b.res.warnings = a.res.warnings)
    (hu : b.usedVars = a.usedVars)
    (hs : b.res.safetyChecks = a.res.safetyChecks)
    (he : b.res.errors = a.res.errors)
    (hv : b.res.isValid = a.res.isValid) : Grows a b := by
  refine ⟨?_, ?_, ?_, ?_, ?_, ?_, ?_, ?_⟩ <;>
    simp only [Inv, hw, hu, hs, he, hv] <;> intros <;> assumption

lemma pushWarning_grows (d : ValidationResult) (st : ScanSt) :
    Grows st (pushWarning d st) := by
  refine ⟨?_, fun v h => h, id, id, id, id, id, fun hI => hI⟩
  intro w hw
  exact List.mem_append.mpr (Or.inl hw)

lemma pushError_grows (d : ValidationResult) (hd : d.category = "syntax") (st : ScanSt) :
    Grows st (pushError d st) := by
  refine ⟨fun w h => h, fun v h => h, id, id, id, id, id, fun hI => ?_⟩
  obtain ⟨_, h2⟩ := hI
  constructor
  · show false = (st.res.errors ++ [d]).isEmpty
    cases st.res.errors <;> rfl
  · intro e he
    rcases List.mem_append.mp he with h | h
    · exact h2 e h
    · rw [List.mem_singleton.mp h]; exact hd

lemma trackSections_grows (u : Chars) (st : ScanSt) : Grows st (trackSections u st) := by
  unfold trackSections
  split_ifs <;> exact grows_keep rfl rfl rfl rfl rfl

lemma parseDecl_grows (t u : Chars) (n : Nat) (st : ScanSt) : Grows st (parseDecl t u n st) := by
  unfold parseDecl
  split
  · split
    · split_ifs <;>
      first
        | exact grows_keep rfl rfl rfl rfl rfl
        | exact grows_trans (grows_keep rfl rfl rfl rfl rfl) (pushError_grows _ rfl _)
        | exact grows_trans (grows_keep rfl rfl rfl rfl rfl)
            (grows_trans (pushWarning_grows _ _) (grows_keep rfl rfl rfl rfl rfl))
        | exact grows_trans (grows_keep rfl rfl rfl rfl rfl)
            (grows_trans (pushWarning_grows _ _)
              (grows_trans (grows_keep rfl rfl rfl rfl rfl) (pushError_grows _ rfl _)))
        | exact grows_trans (grows_keep rfl rfl rfl rfl rfl)
            (grows_trans (pushWarning_grows _ _)
              (grows_trans (grows_keep rfl rfl rfl rfl rfl)
                (grows_trans (pushWarning_grows _ _) (pushError_grows _ rfl _))))
        | exact grows_trans (grows_keep rfl rfl rfl rfl rfl)
            (grows_trans (pushWarning_grows _ _)
              (grows_trans (grows_keep rfl rfl rfl rfl rfl) (pushWarning_grows _ _)))
    · exact grows_rfl st
  · exact grows_rfl st

lemma checkIF_grows (t u : Chars) (n : Nat) (st : ScanSt) : Grows st (checkIF t u n st) := by
  unfold checkIF
  split
  · exact pushError_grows _ rfl st
  · exact grows_rfl st

lemma checkFOR_grows (u : Chars) (n : Nat) (st : ScanSt) : Grows st (checkFOR u n st) := by
  unfold checkFOR
  split
  · exact pushError_grows _ rfl st
  · exact grows_rfl st

lemma checkWHILE_grows (u : Chars) (n : Nat) (st : ScanSt) : Grows st (checkWHILE u n st) := by
  unfold checkWHILE
  split
  · exact pushError_grows _ rfl st
  · exact grows_rfl st

lemma checkCASE_grows (u : Chars) (n : Nat) (st : ScanSt) : Grows st (checkCASE u n st) := by
  unfold checkCASE
  split
  · exact pushError_grows _ rfl st
  · exact grows_rfl st

lemma checkEq_grows (t u : Chars) (n : Nat) (st : ScanSt) : Grows st (checkEq t u n st) := by
  unfold checkEq
  split
  · exact pushWarning_grows _ st
  · exact grows_rfl st

lemma checkSemi_grows (t u : Chars) (n : Nat) (st : ScanSt) : Grows st (checkSemi t u n st) := by
  unfold checkSemi
  split
  · exact pushWarning_grows _ st
  · exact grows_rfl st

lemma trackUsage_grows (t : Chars) (st : ScanSt) : Grows st (trackUsage t st) := by
  unfold trackUsage
  split
  · refine ⟨fun w h => h, ?_, id, id, id, id, id, fun hI => hI⟩
    intro v hv
    unfold addSet
    split
    · exact hv
    · exact List.mem_append.mpr (Or.inl hv)
  · exact grows_rfl st

/-- The safety flags after one safety scan: each flag is forced true when its
keyword family matches, and is otherwise kept. -/
lemma safetyScan_checks (u : Chars) (st : ScanSt) :
    (safetyScan u st).res.safetyChecks =
      { emergencyStop := if hasSub "EMERGENCY".toList u || hasSub "E_STOP".toList u ||
            hasSub "ESTOP".toList u || hasSub "SAFETY".toList u then true
          else st.res.safetyChecks.emergencyStop,
        safetyInterlocks := if hasSub "INTERLOCK".toList u || hasSub "SAFETY_GATE".toList u ||
            hasSub "LIGHT_CURTAIN".toList u || hasSub "SAFETY_DOOR".toList u then true
          else st.res.safetyChecks.safetyInterlocks,
        failSafeMechanisms := if hasSub "FAIL_SAFE".toList u || hasSub "WATCHDOG".toList u ||
            hasSub "TIMEOUT".toList u || hasSub "SAFETY_TIME".toList u then true
          else st.res.safetyChecks.failSafeMechanisms,
        watchdogTimer := if hasSub "WATCHDOG".toList u || hasSub "WDT".toList u ||
            hasSeq "TIMER".toList "RESET".toList u then true
          else st.res.safetyChecks.watchdogTimer,
        inputValidation := if hasSeq "INPUT".toList "VALID".toList u ||
            hasSeq "RANGE".toList "CHECK".toList u ||
            hasSeq "LIMIT".toList "CHECK".toList u then true
          else st.res.safetyChecks.inputValidation } := by
  unfold safetyScan
  split_ifs <;> rfl

lemma safetyScan_grows (u : Chars) (st : ScanSt) : Grows st (safetyScan u st) := by
  refine ⟨fun _ h => h, fun _ h => h, ?_, ?_, ?_, ?_, ?_, fun hI => hI⟩ <;>
    · intro h
      rw [safetyScan_checks]
      dsimp only
      split_ifs <;> simp [h]

lemma structScan_grows (u : Chars) (st : ScanSt) : Grows st (structScan u st) := by
  unfold structScan
  split
  · exact grows_keep rfl rfl rfl rfl rfl
  · exact grows_rfl st

lemma parenScan_grows (t : Chars) (st : ScanSt) : Grows st (parenScan t st) :=
  grows_keep rfl rfl rfl rfl rfl

lemma processLine_grows (st : ScanSt) (n : Nat) (l : Chars) :
    Grows st (processLine st n l) := by
  unfold processLine
  dsimp only
  split_ifs
  · exact grows_rfl st
  · exact grows_trans (trackSections_grows _ _)
      (grows_trans (parseDecl_grows _ _ _ _)
        (grows_trans (checkIF_grows _ _ _ _)
          (grows_trans (checkFOR_grows _ _ _)
            (grows_trans (checkWHILE_grows _ _ _)
              (grows_trans (checkCASE_grows _ _ _)
                (grows_trans (checkEq_grows _ _ _ _)
                  (grows_trans (checkSemi_grows _ _ _ _)
                    (grows_trans (trackUsage_grows _ _)
                      (grows_trans (safetyScan_grows _ _)
                        (grows_trans (structScan_grows _ _) (parenScan_grows _ _)))))))))))

lemma scanLines_grows (ls : List Chars) : ∀ (st : ScanSt) (n : Nat), Grows st (scanLines st n ls) := by
  induction ls with
  | nil => intro st n; exact grows_rfl st
  | cons l ls ih =>
    intro st n
    exact grows_trans (processLine_grows st n l) (ih (processLine st n l) (n + 1))

lemma initSt_inv : Inv initSt := by
  constructor
  · rfl
  · intro e he
    simp [initSt, initResults] at he

lemma trackSections_brace (u : Chars) (st : ScanSt) :
    (trackSections u st).braceCount = st.braceCount := by
  unfold trackSections
  split_ifs <;> rfl

lemma parseDecl_brace (t u : Chars) (n : Nat) (st : ScanSt) :
    (parseDecl t u n st).braceCount = st.braceCount := by
  unfold parseDecl
  split
  · split
    · split_ifs <;> rfl
    · rfl
  · rfl

lemma checkIF_brace (t u : Chars) (n : Nat) (st : ScanSt) :
    (checkIF t u n st).braceCount = st.braceCount := by
  unfold checkIF
  split_ifs <;> rfl

lemma checkFOR_brace (u : Chars) (n : Nat) (st : ScanSt) :
    (checkFOR u n st).braceCount = st.braceCount := by
  unfold checkFOR
  split_ifs <;> rfl

lemma checkWHILE_brace (u : Chars) (n : Nat) (st : ScanSt) :
    (checkWHILE u n st).braceCount = st.braceCount := by
  unfold checkWHILE
  split_ifs <;> rfl

lemma checkCASE_brace (u : Chars) (n : Nat) (st : ScanSt) :
    (checkCASE u n st).braceCount = st.braceCount := by
  unfold checkCASE
  split_ifs <;> rfl

lemma checkEq_brace (t u : Chars) (n : Nat) (st : ScanSt) :
    (checkEq t u n st).braceCount = st.braceCount := by
  unfold checkEq
  split_ifs <;> rfl

lemma checkSemi_brace (t u : Chars) (n : Nat) (st : ScanSt) :
    (checkSemi t u n st).braceCount = st.braceCount := by
  unfold checkSemi
  split_ifs <;> rfl

lemma trackUsage_brace (t : Chars) (st : ScanSt) :
    (trackUsage t st).braceCount = st.braceCount := by
  unfold trackUsage
  split <;> rfl

lemma safetyScan_brace (u : Chars) (st : ScanSt) :
    (safetyScan u st).braceCount = st.braceCount := rfl

lemma structScan_brace (u : Chars) (st : ScanSt) :
    (structScan u st).braceCount = st.braceCount := by
  unfold structScan
  split_ifs <;> rfl

lemma processLine_brace (st : ScanSt) (n : Nat) (l : Chars) :
    (processLine st n l).braceCount = st.braceCount + lineDelta l := by
  unfold processLine lineDelta
  dsimp only
  split_ifs with h
  · omega
  · show ((parenScan (trimL l) _).braceCount = _)
    unfold parenScan
    dsimp only
    rw [structScan_brace, safetyScan_brace, trackUsage_brace, checkSemi_brace, checkEq_brace,
        checkCASE_brace, checkWHILE_brace, checkFOR_brace, checkIF_brace, parseDecl_brace,
        trackSections_brace]
    omega

lemma scanLines_brace (ls : List Chars) :
    ∀ (st : ScanSt) (n : Nat),
      (scanLines st n ls).braceCount = st.braceCount + (ls.map lineDelta).sum := by
  induction ls with
  | nil => intro st n; simp [scanLines]
  | cons l ls ih =>
    intro st n
    show (scanLines (processLine st n l) (n + 1) ls).braceCount = _
    rw [ih, processLine_brace]
    simp only [List.map_cons, List.sum_cons]
    omega

lemma scanCode_brace (code : String) : (scanCode code).braceCount = parenBalance code := by
  unfold scanCode parenBalance
  rw [scanLines_brace]
  simp [initSt]

lemma finalize_errors (code : Chars) (st : ScanSt) :
    (finalize code st).errors =
      st.res.errors ++ (if st.braceCount ≠ 0 then [parenErr] else []) := by
  unfold finalize
  dsimp only
  split_ifs <;> simp

lemma finalize_isValid (code : Chars) (st : ScanSt) :
    (finalize code st).isValid = (if st.braceCount ≠ 0 then false else st.res.isValid) := by
  unfold finalize
  dsimp only
  split_ifs <;> rfl

lemma finalize_warnings (code : Chars) (st : ScanSt) :
    (finalize code st).warnings = st.res.warnings ++
      ((st.declaredVars.filter (fun v => !(decide (v ∈ st.usedVars)))).map unusedWarn) := by
  unfold finalize
  dsimp only
  split_ifs <;> rfl

lemma finalize_safety (code : Chars) (st : ScanSt) :
    (finalize code st).safetyChecks = st.res.safetyChecks := by
  unfold finalize
  dsimp only
  split_ifs <;> rfl

lemma finalize_syntaxScore (code : Chars) (st : ScanSt) :
    (finalize code st).syntaxScore =
      max 0 (100 - 15 * ((finalize code st).errors.length : Int)
               - 5 * ((finalize code st).warnings.length : Int)) := by
  unfold finalize
  dsimp only

lemma finalize_logicScore (code : Chars) (st : ScanSt) :
    (finalize code st).logicScore =
      max 0 (100 - 20 *
        (((finalize code st).errors.filter (fun e => e.category == "semantics")).length : Int)) := by
  unfold finalize
  dsimp only

lemma finalize_safetyScore (code : Chars) (st : ScanSt) :
    (finalize code st).safetyScore =
      min 100 (20 * (countTrueFlags (finalize code st).safetyChecks : Int)) := by
  unfold finalize
  dsimp only

lemma scan_inv (code : String) : Inv (scanCode code) :=
  (scanLines_grows (linesOf code) initSt 1).2.2.2.2.2.2.2 initSt_inv

lemma report_isValid (code : String) :
    (performSTValidation code).isValid = (performSTValidation code).errors.isEmpty := by
  have h := scan_inv code
  unfold performSTValidation
  rw [finalize_isValid, finalize_errors]
  split_ifs with hb
  · cases (scanCode code).res.errors <;> rfl
  · rw [List.append_nil]
    exact h.1

lemma report_errors_cat (code : String) :
    ∀ e ∈ (performSTValidation code).errors, e.category = "syntax" := by
  have h := (scan_inv code).2
  unfold performSTValidation
  rw [finalize_errors]
  intro e he
  rcases List.mem_append.mp he with h1 | h1
  · exact h e h1
  · split_ifs at h1 with hb
    · rw [List.mem_singleton.mp h1]; rfl
    · simp at h1

lemma checkEq_fires (t u : Chars) (n : Nat) (st : ScanSt)
    (hc : (t.contains '=' && !hasSub ":=".toList t && !hasSub "<=".toList t &&
           !hasSub ">=".toList t && !hasSub "<>".toList t && !hasSub "IF ".toList u) = true) :
    eqWarn n ∈ (checkEq t u n st).res.warnings := by
  unfold checkEq
  rw [if_pos hc]
  exact List.mem_append.mpr (Or.inr (List.mem_singleton.mpr rfl))

lemma processLine_eq_fires (st : ScanSt) (n : Nat) (l : Chars)
    (hs : skipLine (trimL l) = false)
    (hc : ((trimL l).contains '=' && !hasSub ":=".toList (trimL l) &&
           !hasSub "<=".toList (trimL l) && !hasSub ">=".toList (trimL l) &&
           !hasSub "<>".toList (trimL l) && !hasSub "IF ".toList (upperL (trimL l))) = true) :
    eqWarn n ∈ (processLine st n l).res.warnings := by
  unfold processLine
  dsimp only
  rw [if_neg (by simp [hs])]
  apply (parenScan_grows _ _).1
  apply (structScan_grows _ _).1
  apply (safetyScan_grows _ _).1
  apply (trackUsage_grows _ _).1
  apply (checkSemi_grows _ _ _ _).1
  exact checkEq_fires _ _ _ _ hc

lemma scanLines_eq_fires (ls : List Chars) :
    ∀ (st : ScanSt) (n j : Nat) (l : Chars), ls.get? j = some l →
      skipLine (trimL l) = false →
      ((trimL l).contains '=' && !hasSub ":=".toList (trimL l) &&
       !hasSub "<=".toList (trimL l) && !hasSub ">=".toList (trimL l) &&
       !hasSub "<>".toList (trimL l) && !hasSub "IF ".toList (upperL (trimL l))) = true →
      eqWarn (n + j) ∈ (scanLines st n ls).res.warnings := by
  induction ls with
  | nil => intro st n j l h _ _; simp [List.get?] at h
  | cons l0 ls ih =>
    intro st n j l hget hs hc
    cases j with
    | zero =>
      have hl : l0 = l := by simpa [List.get?] using hget
      subst hl
      show eqWarn (n + 0) ∈ (scanLines (processLine st n l0) (n + 1) ls).res.warnings
      have h0 := processLine_eq_fires st n l0 hs hc
      have h1 := (scanLines_grows ls (processLine st n l0) (n + 1)).1 _ h0
      simpa using h1
    | succ j =>
      have hget' : ls.get? j = some l := by simpa [List.get?] using hget
      have h1 := ih (processLine st n l0) (n + 1) j l hget' hs hc
      show eqWarn (n + (j + 1)) ∈ (scanLines (processLine st n l0) (n + 1) ls).res.warnings
      have heq : n + (j + 1) = (n + 1) + j := by omega
      rw [heq]
      exact h1

lemma processLine_use_fires (st : ScanSt) (n : Nat) (l w : Chars)
    (hs : skipLine (trimL l) = false)
    (hf : findAssign (trimL l) = some w) :
    upperL w ∈ (processLine st n l).usedVars := by
  unfold processLine
  dsimp only
  rw [if_neg (by simp [hs])]
  apply (parenScan_grows _ _).2.1
  apply (structScan_grows _ _).2.1
  apply (safetyScan_grows _ _).2.1
  unfold trackUsage
  rw [hf]
  show upperL w ∈ addSet (upperL w) _
  unfold addSet
  split
  · assumption
  · exact List.mem_append.mpr (Or.inr (List.mem_singleton.mpr rfl))

lemma scanLines_use_fires (ls : List Chars) :
    ∀ (st : ScanSt) (n : Nat) (l w : Chars), l ∈ ls →
      skipLine (trimL l) = false → findAssign (trimL l) = some w →
      upperL w ∈ (scanLines st n ls).usedVars := by
  induction ls with
  | nil => intro st n l w h; simp at h
  | cons l0 ls ih =>
    intro st n l w hmem hs hf
    rcases List.mem_cons.mp hmem with hl | hmem'
    · subst hl
      show upperL w ∈ (scanLines (processLine st n l) (n + 1) ls).usedVars
      exact (scanLines_grows ls (processLine st n l) (n + 1)).2.1 _
        (processLine_use_fires st n l w hs hf)
    · exact ih (processLine st n l0) (n + 1) l w hmem' hs hf

lemma report_unused_warn (code : String) (v : Chars)
    (hd : v ∈ declaredOf code) (hu : v ∉ usedOf code) :
    unusedWarn v ∈ (performSTValidation code).warnings := by
  show unusedWarn v ∈ (finalize code.data (scanCode code)).warnings
  rw [finalize_warnings]
  apply List.mem_append.mpr
  right
  apply List.mem_map.mpr
  refine ⟨v, List.mem_filter.mpr ⟨hd, ?_⟩, rfl⟩
  simpa using hu

lemma processLine_watchdog_fires (st : ScanSt) (n : Nat) (l : Chars)
    (hs : skipLine (trimL l) = false)
    (hw : hasSub "WATCHDOG".toList (upperL (trimL l)) = true) :
    (processLine st n l).res.safetyChecks.failSafeMechanisms = true ∧
    (processLine st n l).res.safetyChecks.watchdogTimer = true := by
  have hc1 : (hasSub "FAIL_SAFE".toList (upperL (trimL l)) ||
      hasSub "WATCHDOG".toList (upperL (trimL l)) || hasSub "TIMEOUT".toList (upperL (trimL l)) ||
      hasSub "SAFETY_TIME".toList (upperL (trimL l))) = true := by
    rw [hw]; simp
  have hc2 : (hasSub "WATCHDOG".toList (upperL (trimL l)) ||
      hasSub "WDT".toList (upperL (trimL l)) ||
      hasSeq "TIMER".toList "RESET".toList (upperL (trimL l))) = true := by
    rw [hw]; simp
  unfold processLine
  dsimp only
  rw [if_neg (by simp [hs])]
  constructor
  · apply (parenScan_grows _ _).2.2.2.2.1
    apply (structScan_grows _ _).2.2.2.2.1
    rw [safetyScan_checks]
    dsimp only
    simp only [hc1, if_true]
  · apply (parenScan_grows _ _).2.2.2.2.2.1
    apply (structScan_grows _ _).2.2.2.2.2.1
    rw [safetyScan_checks]
    dsimp only
    simp only [hc2, if_true]

lemma processLine_safety_fires (st : ScanSt) (n : Nat) (l : Chars)
    (hs : skipLine (trimL l) = false)
    (hw : hasSub "SAFETY".toList (upperL (trimL l)) = true) :
    (processLine st n l).res.safetyChecks.emergencyStop = true := by
  have hc : (hasSub "EMERGENCY".toList (upperL (trimL l)) ||
      hasSub "E_STOP".toList (upperL (trimL l)) || hasSub "ESTOP".toList (upperL (trimL l)) ||
      hasSub "SAFETY".toList (upperL (trimL l))) = true := by
    rw [hw]; simp
  unfold processLine
  dsimp only
  rw [if_neg (by simp [hs])]
  apply (parenScan_grows _ _).2.2.1
  apply (structScan_grows _ _).2.2.1
  rw [safetyScan_checks]
  dsimp only
  simp only [hc, if_true]

lemma scanLines_watchdog_fires (ls : List Chars) :
    ∀ (st : ScanSt) (n : Nat) (l : Chars), l ∈ ls →
      skipLine (trimL l) = false → hasSub "WATCHDOG".toList (upperL (trimL l)) = true →
      (scanLines st n ls).res.safetyChecks.failSafeMechanisms = true ∧
      (scanLines st n ls).res.safetyChecks.watchdogTimer = true := by
  induction ls with
  | nil => intro st n l h; simp at h
  | cons l0 ls ih =>
    intro st n l hmem hs hw
    rcases List.mem_cons.mp hmem with hl | hmem'
    · subst hl
      have h0 := processLine_watchdog_fires st n l hs hw
      exact ⟨(scanLines_grows ls (processLine st n l) (n + 1)).2.2.2.2.1 h0.1,
             (scanLines_grows ls (processLine st n l) (n + 1)).2.2.2.2.2.1 h0.2⟩
    · exact ih (processLine st n l0) (n + 1) l hmem' hs hw

lemma scanLines_safety_fires (ls : List Chars) :
    ∀ (st : ScanSt) (n : Nat) (l : Chars), l ∈ ls →
      skipLine (trimL l) = false → hasSub "SAFETY".toList (upperL (trimL l)) = true →
      (scanLines st n ls).res.safetyChecks.emergencyStop = true := by
  induction ls with
  | nil => intro st n l h; simp at h
  | cons l0 ls ih =>
    intro st n l hmem hs hw
    rcases List.mem_cons.mp hmem with hl | hmem'
    · subst hl
      exact (scanLines_grows ls (processLine st n l) (n + 1)).2.2.1
        (processLine_safety_fires st n l hs hw)
    · exact ih (processLine st n l0) (n + 1) l hmem' hs hw

lemma score_bounds (code : String) :
    (0 ≤ (performSTValidation code).syntaxScore ∧ (performSTValidation code).syntaxScore ≤ 100) ∧
    (0 ≤ (performSTValidation code).logicScore ∧ (performSTValidation code).logicScore ≤ 100) ∧
    (0 ≤ (performSTValidation code).safetyScore ∧ (performSTValidation code).safetyScore ≤ 100) := by
  have hs : (performSTValidation code).syntaxScore =
      max 0 (100 - 15 * ((performSTValidation code).errors.length : Int)
               - 5 * ((performSTValidation code).warnings.length : Int)) :=
    finalize_syntaxScore code.data (scanCode code)
  have hl : (performSTValidation code).logicScore =
      max 0 (100 - 20 * (((performSTValidation code).errors.filter
        (fun e => e.category == "semantics")).length : Int)) :=
    finalize_logicScore code.data (scanCode code)
  have hf : (performSTValidation code).safetyScore =
      min 100 (20 * (countTrueFlags (performSTValidation code).safetyChecks : Int)) :=
    finalize_safetyScore code.data (scanCode code)
  refine ⟨⟨?_, ?_⟩, ⟨?_, ?_⟩, ⟨?_, ?_⟩⟩
  · rw [hs]; exact le_max_left 0 _
  · rw [hs]
    apply max_le (by norm_num)
    have h1 : (0 : Int) ≤ ((performSTValidation code).errors.length : Int) := Int.natCast_nonneg _
    have h2 : (0 : Int) ≤ ((performSTValidation code).warnings.length : Int) := Int.natCast_nonneg _
    omega
  · rw [hl]; exact le_max_left 0 _
  · rw [hl]
    apply max_le (by norm_num)
    have h1 : (0 : Int) ≤ (((performSTValidation code).errors.filter
        (fun e => e.category == "semantics")).length : Int) := Int.natCast_nonneg _
    omega
  · rw [hf]
    apply le_min (by norm_num)
    have h1 : (0 : Int) ≤ (countTrueFlags (performSTValidation code).safetyChecks : Int) :=
      Int.natCast_nonneg _
    omega
  · rw [hf]; exact min_le_left 100 _

/-- C1: for every input source string, the report satisfies
isValid == (errors.length == 0): the isValid field is true exactly when the
errors list is empty. Every error site appends to errors and sets isValid to
false, and nothing else touches isValid. -/
theorem claim1_isValid_iff_no_errors (code : String) :
    (performSTValidation code).isValid = true ↔
      (performSTValidation code).errors.length = 0 := by
  rw [report_isValid code]
  simp [List.isEmpty_iff, List.length_eq_zero]

/-- C2 counterexample: on the input VAR, IF : BOOL;, END_VAR the claim
announces exactly one Error, but the validator produces two: the
reserved-word error and, on the same line, the line-local IF-without-THEN
error (the line contains the characters I, F, space and no THEN and no
assignment operator). -/
theorem claim2_counterexample :
    (performSTValidation "VAR\nIF : BOOL;\nEND_VAR").errors.length = 2 := by decide

/-- C2 amended: for the input VAR, IF : BOOL;, END_VAR, validation returns a
report whose errors list holds exactly two Errors, both category Syntax and
severity Critical at line 2 - first the reserved-word-misuse error for IF,
then the IF-statement-must-be-followed-by-THEN error - and isValid = false. -/
theorem claim2_reserved_word_scenario :
    (performSTValidation "VAR\nIF : BOOL;\nEND_VAR").errors =
      [reservedErr "IF".toList 2, ifErr 2] ∧
    (performSTValidation "VAR\nIF : BOOL;\nEND_VAR").isValid = false := by decide

/-- C3: for every input, no produced error carries category semantics
(every error site uses category syntax), and therefore
logicScore = max(0, 100 - 20 x |semantics errors|) is always 100. -/
theorem claim3_logicScore_always_100 (code : String) :
    ((performSTValidation code).errors.filter (fun e => e.category == "semantics")) = [] ∧
    (performSTValidation code).logicScore = 100 := by
  have hfil :
      ((performSTValidation code).errors.filter (fun e => e.category == "semantics")) = [] := by
    apply List.filter_eq_nil_iff.mpr
    intro e he
    rw [report_errors_cat code e he]
    decide
  refine ⟨hfil, ?_⟩
  have hl := finalize_logicScore code.data (scanCode code)
  show (finalize code.data (scanCode code)).logicScore = 100
  rw [hl]
  have : ((finalize code.data (scanCode code)).errors.filter
      (fun e => e.category == "semantics")) = [] := hfil
  rw [this]
  decide

/-- C4: the score formulas of the report - syntaxScore is
max(0, 100 - 15 x |errors| - 5 x |warnings|), safetyScore is
min(100, 20 x number of true safety flags), all three scores are clamped to
the interval [0,100], and any input with exactly 2 errors, 1 warning and no
semantics-category errors scores syntaxScore 65 and logicScore 100. -/
theorem claim4_score_formulas (code : String) :
    (performSTValidation code).syntaxScore =
      max 0 (100 - 15 * ((performSTValidation code).errors.length : Int)
               - 5 * ((performSTValidation code).warnings.length : Int)) ∧
    (performSTValidation code).safetyScore =
      min 100 (20 * (countTrueFlags (performSTValidation code).safetyChecks : Int)) ∧
    (0 ≤ (performSTValidation code).syntaxScore ∧ (performSTValidation code).syntaxScore ≤ 100) ∧
    (0 ≤ (performSTValidation code).logicScore ∧ (performSTValidation code).logicScore ≤ 100) ∧
    (0 ≤ (performSTValidation code).safetyScore ∧ (performSTValidation code).safetyScore ≤ 100) ∧
    ((performSTValidation code).errors.length = 2 →
      (performSTValidation code).warnings.length = 1 →
      ((performSTValidation code).errors.filter (fun e => e.category == "semantics")).length = 0 →
      (performSTValidation code).syntaxScore = 65 ∧ (performSTValidation code).logicScore = 100) := by
  have hs : (performSTValidation code).syntaxScore =
      max 0 (100 - 15 * ((performSTValidation code).errors.length : Int)
               - 5 * ((performSTValidation code).warnings.length : Int)) :=
    finalize_syntaxScore code.data (scanCode code)
  have hl : (performSTValidation code).logicScore =
      max 0 (100 - 20 * (((performSTValidation code).errors.filter
        (fun e => e.category == "semantics")).length : Int)) :=
    finalize_logicScore code.data (scanCode code)
  have hf : (performSTValidation code).safetyScore =
      min 100 (20 * (countTrueFlags (performSTValidation code).safetyChecks : Int)) :=
    finalize_safetyScore code.data (scanCode code)
  have hb := score_bounds code
  refine ⟨hs, hf, hb.1, hb.2.1, hb.2.2, ?_⟩
  intro h2 h1 h0
  constructor
  · rw [hs, h2, h1]; decide
  · rw [hl, h0]; decide

/-- C4 witness: the input with lines IF a, FOR i, x = 1; produces exactly two
errors and one warning, and the theorem then yields syntaxScore 65 and
logicScore 100 on it. -/
theorem claim4_score_formulas_witness :
    (performSTValidation "IF a\nFOR i\nx = 1;").errors.length = 2 ∧
    (performSTValidation "IF a\nFOR i\nx = 1;").warnings.length = 1 ∧
    (performSTValidation "IF a\nFOR i\nx = 1;").syntaxScore = 65 ∧
    (performSTValidation "IF a\nFOR i\nx = 1;").logicScore = 100 :=
  ⟨by decide, by decide,
   ((claim4_score_formulas "IF a\nFOR i\nx = 1;").2.2.2.2.2
      (by decide) (by decide) (by decide)).1,
   ((claim4_score_formulas "IF a\nFOR i\nx = 1;").2.2.2.2.2
      (by decide) (by decide) (by decide)).2⟩

/-- C5: whenever the final parenthesis balance over the processed lines is
nonzero, the report contains the unmatched-parentheses Error (category
Syntax, severity Critical, no line number) and isValid is false; in
particular the single line x := (a + b; yields exactly that one Error with
isValid = false. -/
theorem claim5_unmatched_parens (code : String) (h : parenBalance code ≠ 0) :
    parenErr ∈ (performSTValidation code).errors ∧
    (performSTValidation code).isValid = false ∧
    (performSTValidation "x := (a + b;").errors = [parenErr] ∧
    (performSTValidation "x := (a + b;").isValid = false := by
  have hb : (scanCode code).braceCount ≠ 0 := by rw [scanCode_brace]; exact h
  refine ⟨?_, ?_, by decide, by decide⟩
  · show parenErr ∈ (finalize code.data (scanCode code)).errors
    rw [finalize_errors, if_pos hb]
    exact List.mem_append.mpr (Or.inr (List.mem_singleton.mpr rfl))
  · show (finalize code.data (scanCode code)).isValid = false
    rw [finalize_isValid, if_pos hb]

/-- C5 witness: the theorem applied to the concrete input x := (a + b;. -/
theorem claim5_unmatched_parens_witness :
    parenErr ∈ (performSTValidation "x := (a + b;").errors ∧
    (performSTValidation "x := (a + b;").isValid = false :=
  ⟨(claim5_unmatched_parens "x := (a + b;" (by decide)).1,
   (claim5_unmatched_parens "x := (a + b;" (by decide)).2.1⟩

/-- C6 counterexample: the processed line a := b = c; contains a bare equals
character (the second equals sign, preceded by a blank, is not part of the
two-character operators) and is not an IF line, yet the report carries no
warning at all: the source suppresses the assignment warning whenever the
assignment operator occurs anywhere on the line. -/
theorem claim6_counterexample :
    specBareEq (trimL "a := b = c;".toList) = true ∧
    hasSub "IF ".toList (upperL (trimL "a := b = c;".toList)) = false ∧
    skipLine (trimL "a := b = c;".toList) = false ∧
    (performSTValidation "a := b = c;").warnings = [] := by decide

/-- C6 amended: for every processed line that contains an equals character
but contains none of the two-character sequences :=, <=, >=, <> anywhere in
the line, and whose upper-cased text does not contain IF followed by a blank,
the report gains the Warning with category Syntax, severity Medium and
message recommending the assignment operator, carrying that line's number;
and warnings never affect isValid, which always equals emptiness of errors. -/
theorem claim6_assignment_warning (code : String) :
    (∀ (j : Nat) (l : Chars), (linesOf code).get? j = some l →
      skipLine (trimL l) = false →
      ((trimL l).contains '=' && !hasSub ":=".toList (trimL l) &&
       !hasSub "<=".toList (trimL l) && !hasSub ">=".toList (trimL l) &&
       !hasSub "<>".toList (trimL l) && !hasSub "IF ".toList (upperL (trimL l))) = true →
      eqWarn (j + 1) ∈ (performSTValidation code).warnings) ∧
    (performSTValidation code).isValid = (performSTValidation code).errors.isEmpty := by
  refine ⟨?_, report_isValid code⟩
  intro j l hget hs hc
  have hscan := scanLines_eq_fires (linesOf code) initSt 1 j l hget hs hc
  have heq : 1 + j = j + 1 := by omega
  rw [heq] at hscan
  show eqWarn (j + 1) ∈ (finalize code.data (scanCode code)).warnings
  rw [finalize_warnings]
  exact List.mem_append.mpr (Or.inl hscan)

/-- C6 witness: the theorem applied at line x = 1; of the one-line input. -/
theorem claim6_assignment_warning_witness :
    eqWarn 1 ∈ (performSTValidation "x = 1;").warnings :=
  (claim6_assignment_warning "x = 1;").1 0 ("x = 1;".toList)
    (by decide) (by decide) (by decide)

/-- C7 counterexample: in the input VAR, x : INT := 5;, INT : BOOL;, END_VAR,
every line lies in the declaration section, so under the claim no name could
enter usedVariables; but the declaration line x : INT := 5; records INT
(the first identifier run before the assignment operator), so INT is
declared, assigned nowhere outside declarations, and still gets no
declared-but-never-used warning: only X does. -/
theorem claim7_counterexample :
    usedOf "VAR\nx : INT := 5;\nINT : BOOL;\nEND_VAR" = ["INT".toList] ∧
    declaredOf "VAR\nx : INT := 5;\nINT : BOOL;\nEND_VAR" = ["X".toList, "INT".toList] ∧
    (performSTValidation "VAR\nx : INT := 5;\nINT : BOOL;\nEND_VAR").warnings
      = [unusedWarn "X".toList] := by decide

/-- C7 amended: on every processed line - including lines inside declaration
sections - the validator records the upper-cased first identifier standing
before an assignment operator into usedVariables; after all lines, every
name in declaredVariables absent from usedVariables produces the Warning
with category Style, severity Low, message declared-but-never-used and no
line number; and no such warning ever appears in errors. -/
theorem claim7_usage_tracking (code : String) :
    (∀ (l w : Chars), l ∈ linesOf code → skipLine (trimL l) = false →
       findAssign (trimL l) = some w → upperL w ∈ usedOf code) ∧
    (∀ v ∈ declaredOf code, v ∉ usedOf code →
       unusedWarn v ∈ (performSTValidation code).warnings) ∧
    (∀ v : Chars, unusedWarn v ∉ (performSTValidation code).errors) := by
  refine ⟨?_, ?_, ?_⟩
  · intro l w hmem hs hf
    exact scanLines_use_fires (linesOf code) initSt 1 l w hmem hs hf
  · intro v hd hu
    exact report_unused_warn code v hd hu
  · intro v hmem
    have h := report_errors_cat code _ hmem
    have h2 : (unusedWarn v).category = "style" := rfl
    rw [h2] at h
    exact absurd h (by decide)

/-- C7 witness: the theorem applied to VAR, uu : INT := 5;, END_VAR - the
declaration line records INT as used, uu is unused and warned about, and the
unused warning is not an error. -/
theorem claim7_usage_tracking_witness :
    upperL "INT".toList ∈ usedOf "VAR\nuu : INT := 5;\nEND_VAR" ∧
    unusedWarn "UU".toList ∈ (performSTValidation "VAR\nuu : INT := 5;\nEND_VAR").warnings ∧
    unusedWarn "UU".toList ∉ (performSTValidation "VAR\nuu : INT := 5;\nEND_VAR").errors :=
  ⟨(claim7_usage_tracking "VAR\nuu : INT := 5;\nEND_VAR").1
      ("uu : INT := 5;".toList) ("INT".toList) (by decide) (by decide) (by decide),
   (claim7_usage_tracking "VAR\nuu : INT := 5;\nEND_VAR").2.1
      ("UU".toList) (by decide) (by decide),
   (claim7_usage_tracking "VAR\nuu : INT := 5;\nEND_VAR").2.2 ("UU".toList)⟩

/-- C8: validation is a total function whose three scores always lie in
[0,100] and whose isValid mirrors emptiness of errors; degenerate inputs -
the empty string, whitespace-only text, and non-ST text - produce a
well-formed report with no declarations, no errors, no warnings, and the
scores at their neutral or maximum defaults (100, 100, 0). -/
theorem claim8_total_and_wellformed (code : String) :
    (0 ≤ (performSTValidation code).syntaxScore ∧ (performSTValidation code).syntaxScore ≤ 100) ∧
    (0 ≤ (performSTValidation code).logicScore ∧ (performSTValidation code).logicScore ≤ 100) ∧
    (0 ≤ (performSTValidation code).safetyScore ∧ (performSTValidation code).safetyScore ≤ 100) ∧
    ((performSTValidation code).isValid = (performSTValidation code).errors.isEmpty) ∧
    ((performSTValidation "").errors = [] ∧ (performSTValidation "").warnings = [] ∧
     (performSTValidation "").isValid = true ∧ declaredOf "" = [] ∧
     (performSTValidation "").syntaxScore = 100 ∧ (performSTValidation "").logicScore = 100 ∧
     (performSTValidation "").safetyScore = 0) ∧
    ((performSTValidation "   \n\t  ").errors = [] ∧
     (performSTValidation "   \n\t  ").warnings = [] ∧
     (performSTValidation "   \n\t  ").isValid = true ∧ declaredOf "   \n\t  " = [] ∧
     (performSTValidation "   \n\t  ").syntaxScore = 100) ∧
    ((performSTValidation "hello world").errors = [] ∧
     (performSTValidation "hello world").isValid = true ∧
     declaredOf "hello world" = []) := by
  have hb := score_bounds code
  exact ⟨hb.1, hb.2.1, hb.2.2, report_isValid code,
    by decide, by decide, by decide⟩

/-- C9: only lines whose trimmed text is empty or starts with the
block-comment opener or the line-comment marker are skipped (such a line
leaves the scan state untouched); interior lines of a multi-line comment
block are processed as ordinary code, so an IF line inside a comment block
still produces the IF-must-be-followed-by-THEN Error and invalidates the
report. -/
theorem claim9_comment_lines :
    (∀ (st : ScanSt) (n : Nat) (l : Chars), skipLine (trimL l) = true →
       processLine st n l = st) ∧
    (performSTValidation "(* begin\nIF (x > 0\n*)").errors = [ifErr 2] ∧
    (performSTValidation "(* begin\nIF (x > 0\n*)").isValid = false := by
  refine ⟨?_, by decide, by decide⟩
  intro st n l h
  unfold processLine
  dsimp only
  rw [if_pos h]

/-- C9 witness: a skipped comment line leaves the initial state unchanged. -/
theorem claim9_comment_lines_witness :
    processLine initSt 1 "(* a comment".toList = initSt :=
  claim9_comment_lines.1 initSt 1 "(* a comment".toList (by decide)

/-- C10: the safety keyword families overlap - any processed line whose text
contains watchdog (case-insensitively) sets both failSafeMechanisms and
watchdogTimer, and any processed line containing safety sets emergencyStop;
consequently the input safety_door := TRUE;, which has no emergency-stop
logic, reports emergencyStop true and suppresses the emergency-stop
suggestion. -/
theorem claim10_safety_overlap (code : String) :
    (∀ l ∈ linesOf code, skipLine (trimL l) = false →
       hasSub "WATCHDOG".toList (upperL (trimL l)) = true →
       (performSTValidation code).safetyChecks.failSafeMechanisms = true ∧
       (performSTValidation code).safetyChecks.watchdogTimer = true) ∧
    (∀ l ∈ linesOf code, skipLine (trimL l) = false →
       hasSub "SAFETY".toList (upperL (trimL l)) = true →
       (performSTValidation code).safetyChecks.emergencyStop = true) ∧
    ((performSTValidation "safety_door := TRUE;").safetyChecks.emergencyStop = true ∧
     estopSugg ∉ (performSTValidation "safety_door := TRUE;").suggestions) := by
  refine ⟨?_, ?_, by decide, by decide⟩
  · intro l hmem hs hw
    have h := scanLines_watchdog_fires (linesOf code) initSt 1 l hmem hs hw
    constructor
    · show (finalize code.data (scanCode code)).safetyChecks.failSafeMechanisms = true
      rw [finalize_safety]
      exact h.1
    · show (finalize code.data (scanCode code)).safetyChecks.watchdogTimer = true
      rw [finalize_safety]
      exact h.2
  · intro l hmem hs hw
    have h := scanLines_safety_fires (linesOf code) initSt 1 l hmem hs hw
    show (finalize code.data (scanCode code)).safetyChecks.emergencyStop = true
    rw [finalize_safety]
    exact h

/-- C10 witness: the theorem applied to watchdog := TRUE; (both fail-safe
flags) and to safety_door := TRUE; (emergency stop). -/
theorem claim10_safety_overlap_witness :
    (performSTValidation "watchdog := TRUE;").safetyChecks.failSafeMechanisms = true ∧
    (performSTValidation "watchdog := TRUE;").safetyChecks.watchdogTimer = true ∧
    (performSTValidation "safety_door := TRUE;").safetyChecks.emergencyStop = true :=
  ⟨((claim10_safety_overlap "watchdog := TRUE;").1 ("watchdog := TRUE;".toList)
      (by decide) (by decide) (by decide)).1,
   ((claim10_safety_overlap "watchdog := TRUE;").1 ("watchdog := TRUE;".toList)
      (by decide) (by decide) (by decide)).2,
   (claim10_safety_overlap "safety_door := TRUE;").2.1 ("safety_door := TRUE;".toList)
      (by decide) (by decide) (by decide)⟩

end STV
